import Mathlib

/-!
Verification of the guild-creation builder (`discord/create_guild.py`).

The Python classes `CreateGuildRole`, `CreateGuildChannel` and `CreateGuild`
are shallowly embedded: Python dictionaries become association lists with
Python-dict update semantics (assignment to an existing key replaces the
value in place; otherwise the entry is appended), dynamic values become the
inductive type `Val`, raised exceptions become `Except PyErr`, and the
mutation of `self` becomes explicit state passing that returns the builder
state as of the raise point.  The time-derived local id produced by
`time_snowflake(utcnow())` (a helper outside this repository; the spec
describes it as a monotonic time-derived placeholder) is passed in as an
explicit `freshId` argument.
-/

/-- Python exceptions raised by the builder. -/
inductive PyErr where
  | typeError (msg : String)
  | valueError (msg : String)
  | attributeError (attr : String)
deriving DecidableEq, Repr

/-- The target of a permission overwrite: a `CreateGuildRole` (matched by the
`isinstance(target, CreateGuildRole)` check) or any other snowflake-like
object, both carrying an `id`. -/
inductive OwTarget where
  | role (tid : Nat)
  | member (tid : Nat)
deriving DecidableEq, Repr

def OwTarget.id : OwTarget → Nat
  | OwTarget.role t => t
  | OwTarget.member t => t

/-- A value of an overwrites mapping: either a real `PermissionOverwrite`,
represented by the allow/deny pair that `perm.pair()` returns (each by its
`.value` bitmask), or any other object, represented by its class name. -/
inductive OwVal where
  | po (allow : Nat) (deny : Nat)
  | other (cls : String)
deriving DecidableEq, Repr

/-- A dynamic Python value as it can appear in the keyword arguments and in
the serialized payloads of the builder. -/
inductive Val where
  | int (n : Int)
  | str (s : String)
  | bool (b : Bool)
  | pynone
  | missing
  | list (xs : List Val)
  | dict (entries : List (String × Val))
  | forumOrder (v : Nat)
  | forumLayout (v : Nat)
  | videoQuality (v : Nat)
  | permissionsObj (v : Nat)
  | colourObj (v : Nat)
  | emojiTag (eid : Option Nat) (ename : String)
  | forumTag (entries : List (String × Val))
  | channelRef (cid : Nat)
  | owMap (entries : List (OwTarget × OwVal))

/-- Python truthiness of a `Val` (numbers and strings by emptiness, `None`
and the `MISSING` sentinel are falsy, generic objects are truthy). -/
def Val.truthy : Val → Bool
  | Val.int n => n != 0
  | Val.str s => !s.isEmpty
  | Val.bool b => b
  | Val.pynone => false
  | Val.missing => false
  | Val.list xs => !xs.isEmpty
  | Val.dict es => !es.isEmpty
  | Val.owMap es => !es.isEmpty
  | _ => true

/-- The Python class name of a `Val`, as used in error messages. -/
def Val.clsName : Val → String
  | Val.int _ => "int"
  | Val.str _ => "str"
  | Val.bool _ => "bool"
  | Val.pynone => "NoneType"
  | Val.missing => "_MissingSentinel"
  | Val.list _ => "list"
  | Val.dict _ => "dict"
  | Val.forumOrder _ => "ForumOrderType"
  | Val.forumLayout _ => "ForumLayoutType"
  | Val.videoQuality _ => "VideoQualityMode"
  | Val.permissionsObj _ => "Permissions"
  | Val.colourObj _ => "Colour"
  | Val.emojiTag _ _ => "PartialEmoji"
  | Val.forumTag _ => "ForumTag"
  | Val.channelRef _ => "CreateGuildChannel"
  | Val.owMap _ => "dict"

/-- The `id` attribute of a value, when it has one (`category.id`). -/
def Val.getId : Val → Option Nat
  | Val.channelRef cid => Option.some cid
  | _ => Option.none

def Val.isMissing : Val → Bool
  | Val.missing => true
  | _ => false

/-- The `.value` attribute of enum-like objects (`Permissions`, `Colour`,
and the channel option enums). -/
def Val.valueAttr : Val → Option Val
  | Val.permissionsObj v => Option.some (Val.int (Int.ofNat v))
  | Val.colourObj v => Option.some (Val.int (Int.ofNat v))
  | Val.forumOrder v => Option.some (Val.int (Int.ofNat v))
  | Val.forumLayout v => Option.some (Val.int (Int.ofNat v))
  | Val.videoQuality v => Option.some (Val.int (Int.ofNat v))
  | _ => Option.none

/-- Lookup in a Python dictionary modelled as an association list
(`d.get(k)` / `d[k]`); keys of a Python dict are unique, so first match. -/
def dictGet {α β : Type} [DecidableEq α] : List (α × β) → α → Option β
  | [], _ => Option.none
  | (k', v) :: rest, k => if k' = k then Option.some v else dictGet rest k

/-- Python dictionary assignment `d[k] = v`: replaces the value in place if
the key is present (keeping its position) and appends otherwise. -/
def dictSet {α β : Type} [DecidableEq α] : List (α × β) → α → β → List (α × β)
  | [], k, v => [(k, v)]
  | (k', v') :: rest, k, v =>
    if k' = k then (k, v) :: rest else (k', v') :: dictSet rest k v

/-- Python `d.pop(k, default)`, as far as the remaining dictionary is
concerned: removes the entry with the given key, if any. -/
def dictErase {α β : Type} [DecidableEq α] : List (α × β) → α → List (α × β)
  | [], _ => []
  | (k', v') :: rest, k =>
    if k' = k then rest else (k', v') :: dictErase rest k

/-- Sequential dictionary assignments, used for the `**options` merge in a
dict literal. -/
def dictSetAll (base : List (String × Val)) (entries : List (String × Val)) :
    List (String × Val) :=
  entries.foldl (fun acc kv => dictSet acc kv.1 kv.2) base

/-- The keys of a dictionary, in insertion order. -/
def dictKeys {α β : Type} (d : List (α × β)) : List α := d.map Prod.fst

/-- Truthiness of `kwargs.get(k, False)`. -/
def truthyLookup (kwargs : List (String × Val)) (k : String) : Bool :=
  match dictGet kwargs k with
  | Option.some v => v.truthy
  | Option.none => false

/-- `discord.enums.ChannelType` (defined outside this file; the members and
their wire values are standard). -/
inductive ChannelType where
  | text
  | private_channel
  | voice
  | group
  | category
  | news
  | news_thread
  | public_thread
  | private_thread
  | stage_voice
  | forum
  | media
deriving DecidableEq, Repr

def ChannelType.value : ChannelType → Nat
  | ChannelType.text => 0
  | ChannelType.private_channel => 1
  | ChannelType.voice => 2
  | ChannelType.group => 3
  | ChannelType.category => 4
  | ChannelType.news => 5
  | ChannelType.news_thread => 10
  | ChannelType.public_thread => 11
  | ChannelType.private_thread => 12
  | ChannelType.stage_voice => 13
  | ChannelType.forum => 15
  | ChannelType.media => 16

/-- Modelled from the spec: the platform's overwrite-type enumeration
(`abc._Overwrites.ROLE`), distinguishing role targets. -/
def overwriteTypeRole : Nat := 0

/-- Modelled from the spec: the platform's overwrite-type enumeration
(`abc._Overwrites.MEMBER`), distinguishing member targets. -/
def overwriteTypeMember : Nat := 1

/-- Modelled from the spec: `_bytes_to_base64_data` turns raw icon bytes
into a base64 string (standard RFC 4648 alphabet). -/
def base64Chars : List Char :=
  [ 'A', 'B', 'C', 'D', 'E', 'F', 'G', 'H', 'I', 'J', 'K', 'L', 'M',
    'N', 'O', 'P', 'Q', 'R', 'S', 'T', 'U', 'V', 'W', 'X', 'Y', 'Z',
    'a', 'b', 'c', 'd', 'e', 'f', 'g', 'h', 'i', 'j', 'k', 'l', 'm',
    'n', 'o', 'p', 'q', 'r', 's', 't', 'u', 'v', 'w', 'x', 'y', 'z',
    '0', '1', '2', '3', '4', '5', '6', '7', '8', '9', '+', '/' ]

def base64Char (n : Nat) : Char := base64Chars.getD n 'A'

def base64Encode : List Nat → String
  | [] => ""
  | [a] =>
    String.mk [base64Char (a / 4), base64Char (a % 4 * 16)] ++ "=="
  | [a, b] =>
    String.mk [base64Char (a / 4), base64Char (a % 4 * 16 + b / 16),
      base64Char (b % 16 * 4)] ++ "="
  | a :: b :: c :: rest =>
    String.mk [base64Char (a / 4), base64Char (a % 4 * 16 + b / 16),
      base64Char (b % 16 * 4 + c / 64), base64Char (c % 64)]
      ++ base64Encode rest

/-- Modelled from the spec: `_bytes_to_base64_data` produces the base64
data for an icon given as raw bytes. -/
def bytesToBase64Data (bs : List Nat) : String := base64Encode bs

/-- A pending role (`CreateGuildRole`).  Attribute values are stored as the
dynamic values the constructor received (`MISSING` is `Val.missing`). -/
structure CreateGuildRole where
  id : Nat
  name : String
  colour : Val
  hoist : Val
  icon : Val
  unicode_emoji : Val
  position : Val
  permissions : Val
  tags : Val
  mentionable : Val

/-- A pending channel (`CreateGuildChannel`). -/
structure CreateGuildChannel where
  id : Nat
  type : ChannelType
  name : String
  position : Option Int
  overwrites : List (OwTarget × OwVal)
  _options : List (String × Val)

/-- The guild builder (`CreateGuild`).  Enum-typed settings are stored by
their validated `.value`; the channel and role tables are keyed by local id
with Python-dict semantics. -/
structure CreateGuild where
  name : String
  icon : Option (List Nat)
  afk_timeout : Option Int
  _afk_channel : Option CreateGuildChannel
  _system_channel : Option CreateGuildChannel
  system_channel_flags : Option Nat
  verification_level : Nat
  default_message_notifications : Nat
  explicit_content_filter : Nat
  _channels : List (Nat × CreateGuildChannel)
  _roles : List (Nat × CreateGuildRole)

/-- The `system_channel` property getter. -/
def CreateGuild.system_channel (g : CreateGuild) : Option CreateGuildChannel :=
  g._system_channel

/-- The `afk_channel` property getter. -/
def CreateGuild.afk_channel (g : CreateGuild) : Option CreateGuildChannel :=
  g._afk_channel

/-- `CreateGuildRole._to_dict` (lines 99-117): `hoist` and `permissions`
are emitted unconditionally (`self.permissions.value` is an attribute
access that fails on a value without `.value`); colour, icon, unicode
emoji, tags and mentionable are emitted only if set. -/
def CreateGuildRole._to_dict (r : CreateGuildRole) :
    Except PyErr (List (String × Val)) := do
  let pval ←
    match r.permissions.valueAttr with
    | Option.some v => Except.ok v
    | Option.none => Except.error (PyErr.attributeError "value")
  let base := [("id", Val.int (Int.ofNat r.id)), ("name", Val.str r.name),
    ("hoist", r.hoist), ("permissions", pval)]
  let base ←
    if !r.colour.isMissing then
      match r.colour.valueAttr with
      | Option.some cv => Except.ok (dictSet base "color" cv)
      | Option.none => Except.error (PyErr.attributeError "value")
    else Except.ok base
  let base := if !r.icon.isMissing then dictSet base "icon" r.icon else base
  let base :=
    if !r.unicode_emoji.isMissing then
      dictSet base "unicode_emoji" r.unicode_emoji
    else base
  let base := if r.tags.truthy then dictSet base "tags" r.tags else base
  let base :=
    if !r.mentionable.isMissing then
      dictSet base "mentionable" r.mentionable
    else base
  Except.ok base

/-- `CreateGuildChannel._to_dict` (lines 157-168): the base fields merged
with the options dict, then `position` if set, then the raw overwrites
mapping under `permission_overwrites` if non-empty.  Note that the stored
mapping itself is emitted, not an expansion of it. -/
def CreateGuildChannel._to_dict (c : CreateGuildChannel) :
    List (String × Val) :=
  let payload := dictSetAll
    [("id", Val.int (Int.ofNat c.id)),
     ("type", Val.int (Int.ofNat c.type.value)),
     ("name", Val.str c.name)]
    c._options
  let payload :=
    match c.position with
    | Option.some p => dictSet payload "position" (Val.int p)
    | Option.none => payload
  if !c.overwrites.isEmpty then
    dictSet payload "permission_overwrites" (Val.owMap c.overwrites)
  else payload

/-- `CreateGuild._to_dict` (lines 286-314). -/
def CreateGuild._to_dict (g : CreateGuild) :
    Except PyErr (List (String × Val)) :=
  let payload : List (String × Val) :=
    [("name", Val.str g.name),
     ("verification_level", Val.int (Int.ofNat g.verification_level)),
     ("default_message_notifications",
       Val.int (Int.ofNat g.default_message_notifications)),
     ("explicit_content_filter",
       Val.int (Int.ofNat g.explicit_content_filter))]
  let payload :=
    match g.icon with
    | Option.some bs => dictSet payload "icon" (Val.str (bytesToBase64Data bs))
    | Option.none => payload
  let payload :=
    match g.afk_timeout with
    | Option.some t => dictSet payload "afk_timeout" (Val.int t)
    | Option.none => payload
  let payload :=
    match g.system_channel_flags with
    | Option.some f => dictSet payload "system_channel_flags" (Val.int (Int.ofNat f))
    | Option.none => payload
  let payload :=
    match g.afk_channel with
    | Option.some c => dictSet payload "afk_channel_id" (Val.int (Int.ofNat c.id))
    | Option.none => payload
  let payload :=
    match g.system_channel with
    | Option.some c => dictSet payload "system_channel_id" (Val.int (Int.ofNat c.id))
    | Option.none => payload
  let payload :=
    if !g._channels.isEmpty then
      dictSet payload "channels"
        (Val.list (g._channels.map (fun kv => Val.dict kv.2._to_dict)))
    else payload
  if !g._roles.isEmpty then
    match g._roles.mapM (fun kv => kv.2._to_dict) with
    | Except.ok rs =>
      Except.ok (dictSet payload "roles" (Val.list (rs.map Val.dict)))
    | Except.error e => Except.error e
  else Except.ok payload

/-- The `overwrites` argument of `add_channel`: either a mapping (iterated
in insertion order) or some non-mapping object, identified by class. -/
inductive OwArg where
  | mapping (entries : List (OwTarget × OwVal))
  | notMapping (cls : String)

/-- Lines 494-497: a `MISSING` overwrites argument becomes the empty
mapping; a non-mapping raises `TypeError`. -/
def owNormalize : Option OwArg → Except PyErr (List (OwTarget × OwVal))
  | Option.none => Except.ok []
  | Option.some (OwArg.mapping m) => Except.ok m
  | Option.some (OwArg.notMapping _) =>
    Except.error (PyErr.typeError "overwrites parameter expects a dict.")

/-- The explicit allow/deny/id/type record built for one overwrites entry
(lines 504-510). -/
def expandOverwrite (t : OwTarget) (allow deny : Nat) : List (String × Val) :=
  [("allow", Val.int (Int.ofNat allow)), ("deny", Val.int (Int.ofNat deny)),
   ("id", Val.int (Int.ofNat t.id)),
   ("type", Val.int (Int.ofNat
     (match t with
      | OwTarget.role _ => overwriteTypeRole
      | OwTarget.member _ => overwriteTypeMember)))]

/-- The `perms` loop of `add_channel` (lines 499-512): validates every
value of the overwrites mapping and returns the list of expanded records.
`add_channel` computes this list and then never uses it. -/
def checkOverwrites : List (OwTarget × OwVal) →
    Except PyErr (List (List (String × Val)))
  | [] => Except.ok []
  | (t, OwVal.po allow deny) :: rest =>
    match checkOverwrites rest with
    | Except.ok ps => Except.ok (expandOverwrite t allow deny :: ps)
    | Except.error e => Except.error e
  | (_, OwVal.other cls) :: _ =>
    Except.error (PyErr.typeError ("Expected PermissionOverwrite received " ++ cls))

/-- Does every entry of an overwrites mapping hold a `PermissionOverwrite`? -/
def owAllValid : List (OwTarget × OwVal) → Bool
  | [] => true
  | (_, OwVal.po _ _) :: rest => owAllValid rest
  | (_, OwVal.other _) :: _ => false

/-- Modelled from the spec: `PartialEmoji.from_str` parses a raw string
into an emoji value (a unicode string has no id). -/
def partialEmojiFromStr (s : String) : Option Nat × String := (Option.none, s)

/-- Modelled from the spec: the tag-emoji payload shape that
`_to_forum_tag_payload` produces, carrying the emoji id and name. -/
def forumTagPayload (eid : Option Nat) (ename : String) : Val :=
  Val.dict
    [("emoji_id",
      match eid with
      | Option.some i => Val.int (Int.ofNat i)
      | Option.none => Val.pynone),
     ("emoji_name", Val.str ename)]

/-- Modelled from the spec: the `[t.to_dict() for t in available_tags]`
comprehension over forum tags. -/
def forumTagsToDicts : Val → Except PyErr (List Val)
  | Val.list xs =>
    xs.mapM (fun t =>
      match t with
      | Val.forumTag es => Except.ok (Val.dict es)
      | _ => Except.error (PyErr.attributeError "to_dict"))
  | _ => Except.error (PyErr.typeError "available_tags must be iterable")

/-- The per-kind whitelist table `kwargs_per_type` (lines 479-488);
`Option.none` for a channel type missing from the table. -/
def kwargs_per_type : ChannelType → Option (List String)
  | ChannelType.text =>
    Option.some ["category", "news", "topic", "slowmode_delay", "nsfw",
      "overwrites", "default_auto_archive_duration",
      "default_thread_slowmode_delay"]
  | ChannelType.voice =>
    Option.some ["category", "bitrate", "user_limit", "rtc_region",
      "video_quality_mode", "overwrites"]
  | ChannelType.stage_voice =>
    Option.some ["category", "bitrate", "user_limit", "rtc_region",
      "video_quality_mode", "overwrites"]
  | ChannelType.category => Option.some ["overwrites"]
  | ChannelType.forum =>
    Option.some ["topic", "category", "slowmode_delay", "nsfw", "overwrites",
      "default_auto_archive_duration", "default_thread_slowmode_delay",
      "default_sort_order", "default_reaction_emoji", "default_layout",
      "available_tags"]
  | _ => Option.none

/-- The category-resolution branch of `add_channel` (lines 517-526): pops
`category`, resolves `parent_id` (an id of 0 is falsy and skips the
validation entirely), validates existence and kind against the builder's
channel table, and returns the assembled options together with the
remaining kwargs. -/
def categoryBranch (channels : List (Nat × CreateGuildChannel))
    (kwargs : List (String × Val)) :
    Except PyErr (List (String × Val) × List (String × Val)) :=
  match dictGet kwargs "category" with
  | Option.none => Except.ok ([], dictErase kwargs "category")
  | Option.some v =>
    if v.truthy then
      match v.getId with
      | Option.none => Except.error (PyErr.attributeError "id")
      | Option.some p =>
        if p = 0 then Except.ok ([], dictErase kwargs "category")
        else
          match dictGet channels p with
          | Option.none =>
            Except.error (PyErr.valueError ("No such category with ID " ++ toString p))
          | Option.some parent =>
            if parent.type ≠ ChannelType.category then
              Except.error (PyErr.valueError
                ("Channel with ID " ++ toString p ++ " is not a category"))
            else Except.ok ([("parent_id", Val.int (Int.ofNat p))],
              dictErase kwargs "category")
    else Except.ok ([], dictErase kwargs "category")

/-- The forum-options branch of `add_channel` (lines 528-558).  In the
source this is an `elif` of `if channel_type is not ChannelType.category`,
so it can never execute; it is embedded nonetheless. -/
def forumOptions (kwargs : List (String × Val)) :
    Except PyErr (List (String × Val) × List (String × Val)) := do
  let dso := dictGet kwargs "default_sort_order"
  let kwargs := dictErase kwargs "default_sort_order"
  let options : List (String × Val) := []
  let options ←
    match dso with
    | Option.some (Val.forumOrder v) =>
      Except.ok (dictSet options "default_sort_order" (Val.int (Int.ofNat v)))
    | Option.some Val.missing => Except.ok options
    | Option.some other =>
      Except.error (PyErr.typeError
        ("default_sort_order parameter must be a ForumOrderType not " ++ other.clsName))
    | Option.none => Except.ok options
  let dre := dictGet kwargs "default_reaction_emoji"
  let kwargs := dictErase kwargs "default_reaction_emoji"
  let options ←
    match dre with
    | Option.some (Val.emojiTag eid ename) =>
      Except.ok (dictSet options "default_reaction_emoji" (forumTagPayload eid ename))
    | Option.some (Val.str s) =>
      Except.ok (dictSet options "default_reaction_emoji"
        (forumTagPayload (partialEmojiFromStr s).1 (partialEmojiFromStr s).2))
    | Option.some Val.missing => Except.ok options
    | Option.some _ =>
      Except.error (PyErr.valueError
        "default_reaction_emoji parameter must be either Emoji, PartialEmoji, or str")
    | Option.none => Except.ok options
  let dl := dictGet kwargs "default_layout"
  let kwargs := dictErase kwargs "default_layout"
  let options ←
    match dl with
    | Option.some (Val.forumLayout v) =>
      Except.ok (dictSet options "default_forum_layout" (Val.int (Int.ofNat v)))
    | Option.some Val.missing => Except.ok options
    | Option.some other =>
      Except.error (PyErr.typeError
        ("default_layout parameter must be a ForumLayoutType not " ++ other.clsName))
    | Option.none => Except.ok options
  let av := dictGet kwargs "available_tags"
  let kwargs := dictErase kwargs "available_tags"
  let options ←
    match av with
    | Option.some Val.missing => Except.ok options
    | Option.some v => do
      let tags ← forumTagsToDicts v
      Except.ok (dictSet options "available_tags" (Val.list tags))
    | Option.none => Except.ok options
  Except.ok (options, kwargs)

/-- The voice/stage-voice options branch of `add_channel` (lines 561-570).
Also dead code in the source, for the same reason as `forumOptions`. -/
def voiceOptions (kwargs : List (String × Val)) :
    Except PyErr (List (String × Val) × List (String × Val)) := do
  let rr := dictGet kwargs "rtc_region"
  let kwargs := dictErase kwargs "rtc_region"
  let options : List (String × Val) := []
  let options :=
    match rr with
    | Option.some Val.missing => options
    | Option.some v =>
      dictSet options "rtc_region"
        (match v with
         | Val.pynone => Val.pynone
         | other => other)
    | Option.none => options
  let vqm := dictGet kwargs "video_quality_mode"
  let kwargs := dictErase kwargs "video_quality_mode"
  let options ←
    match vqm with
    | Option.some (Val.videoQuality v) =>
      Except.ok (dictSet options "video_quality_mode" (Val.int (Int.ofNat v)))
    | Option.some Val.missing => Except.ok options
    | Option.some _ =>
      Except.error (PyErr.typeError "video_quality_mode must be of type VideoQualityMode")
    | Option.none => Except.ok options
  Except.ok (options, kwargs)

/-- The `if channel_type is not ChannelType.category: ... elif ... elif ...`
chain of `add_channel` (lines 517-570), exactly as structured in the
source: the first test already captures every kind other than `category`,
so the forum and voice branches are unreachable. -/
def optionsBranch (channels : List (Nat × CreateGuildChannel))
    (channel_type : ChannelType) (kwargs : List (String × Val)) :
    Except PyErr (List (String × Val) × List (String × Val)) :=
  if channel_type ≠ ChannelType.category then
    categoryBranch channels kwargs
  else if channel_type = ChannelType.forum then
    forumOptions kwargs
  else if channel_type = ChannelType.voice ∨ channel_type = ChannelType.stage_voice then
    voiceOptions kwargs
  else Except.ok ([], kwargs)

/-- Line 574-575: is the keyword supplied with a non-`MISSING` value
(`kwargs.get(arg, MISSING) is not MISSING`)?  An absent keyword and one
explicitly supplied as the `MISSING` sentinel are both treated as unset. -/
def suppliedKwarg (kwargs : List (String × Val)) (arg : String) : Bool :=
  match dictGet kwargs arg with
  | Option.some v => !v.isMissing
  | Option.none => false

/-- The whitelist-filter loop of `add_channel` (lines 573-576): copies each
whitelisted kwarg into the options dict when its value
`is not MISSING` (line 575). -/
def applyWhitelist (wl : List String) (kwargs options : List (String × Val)) :
    List (String × Val) :=
  wl.foldl (fun acc arg =>
    match dictGet kwargs arg with
    | Option.some v => if v.isMissing then acc else dictSet acc arg v
    | Option.none => acc) options

/-- Lines 579-584: a text channel with a truthy `system_channel` kwarg
becomes the builder's system channel; a voice channel with a truthy
`afk_channel` kwarg becomes the AFK channel (via the property setters,
whose `isinstance` checks are satisfied by the freshly built channel). -/
def flagUpdate (g : CreateGuild) (channel_type : ChannelType)
    (kwargs : List (String × Val)) (channel : CreateGuildChannel) :
    CreateGuild :=
  if channel_type = ChannelType.text then
    if truthyLookup kwargs "system_channel" then
      { g with _system_channel := Option.some channel }
    else g
  else if channel_type = ChannelType.voice then
    if truthyLookup kwargs "afk_channel" then
      { g with _afk_channel := Option.some channel }
    else g
  else g

/-- `CreateGuild.add_channel` (lines 405-587).  The result carries the
builder state as of the return or raise point; every `raise` in the source
happens before any mutation of the builder, which the error cases reflect
by returning `g` unchanged. -/
def CreateGuild.add_channel (g : CreateGuild) (channel_type : ChannelType)
    (name : String) (position : Option Int) (overwrites : Option OwArg)
    (kwargs : List (String × Val)) (freshId : Nat) :
    Except PyErr CreateGuildChannel × CreateGuild :=
  match kwargs_per_type channel_type with
  | Option.none => (Except.error (PyErr.typeError "Invalid channel type"), g)
  | Option.some wl =>
    match owNormalize overwrites with
    | Except.error e => (Except.error e, g)
    | Except.ok ow =>
      match checkOverwrites ow with
      | Except.error e => (Except.error e, g)
      | Except.ok _perms =>
        match optionsBranch g._channels channel_type kwargs with
        | Except.error e => (Except.error e, g)
        | Except.ok (options0, kwargs2) =>
          let channel : CreateGuildChannel :=
            { id := freshId, type := channel_type, name := name,
              position := position, overwrites := ow,
              _options := applyWhitelist wl kwargs2 options0 }
          let g1 := flagUpdate g channel_type kwargs2 channel
          (Except.ok channel, { g1 with _channels := dictSet g1._channels freshId channel })

/-- The colour argument of `add_role`: a `Colour` instance (always truthy,
carried by its `.value`) or a plain `int`. -/
inductive ColourArg where
  | colourObj (v : Nat)
  | intVal (n : Int)
deriving DecidableEq, Repr

def ColourArg.truthy : ColourArg → Bool
  | ColourArg.colourObj _ => true
  | ColourArg.intVal n => n != 0

/-- The display icon argument of `add_role`: raw bytes or a unicode
emoji string. -/
inductive DisplayIcon where
  | bytes (bs : List Nat)
  | str (s : String)
deriving DecidableEq, Repr

/-- The keyword parameters accepted by `CreateGuildRole.__init__`
(lines 74-86).  Note there is no `color`. -/
def roleInitKeywords : List String :=
  ["colour", "hoist", "icon", "unicode_emoji", "position", "permissions",
   "tags", "mentionable"]

/-- Construction of a `CreateGuildRole` from already-bound keywords
(lines 87-97); unbound keywords are `MISSING`. -/
def mkRoleFromKeywords (rid : Nat) (rname : String)
    (options : List (String × Val)) : CreateGuildRole :=
  { id := rid, name := rname,
    colour := (dictGet options "colour").getD Val.missing,
    hoist := (dictGet options "hoist").getD Val.missing,
    icon := (dictGet options "icon").getD Val.missing,
    unicode_emoji := (dictGet options "unicode_emoji").getD Val.missing,
    position := (dictGet options "position").getD Val.missing,
    permissions := (dictGet options "permissions").getD Val.missing,
    tags := (dictGet options "tags").getD Val.missing,
    mentionable := (dictGet options "mentionable").getD Val.missing }

/-- Line 677: `self._roles[role.id] = role`. -/
def CreateGuild.insertRole (g : CreateGuild) (role : CreateGuildRole) :
    CreateGuild :=
  { g with _roles := dictSet g._roles role.id role }

/-- Lines 655: `colour or color or Colour.default()` picks the first
truthy of the two aliases, else the default colour (`Colour.default()`,
modelled from the spec as the neutral default, value 0). -/
def actualColour (color colour : Option ColourArg) : ColourArg :=
  match Option.filter ColourArg.truthy colour with
  | Option.some c => c
  | Option.none =>
    match Option.filter ColourArg.truthy color with
    | Option.some c => c
    | Option.none => ColourArg.colourObj 0

/-- The options dict `add_role` assembles (lines 649-671): `permissions`
stringified (defaulting to "0"), a `color` entry always present,
`hoist`/`icon`/`unicode_emoji`/`mentionable` when supplied. -/
def roleOptions (permissions : Option Nat) (color colour : Option ColourArg)
    (hoist : Option Bool) (display_icon : Option DisplayIcon)
    (mentionable : Option Bool) : List (String × Val) :=
  let options : List (String × Val) :=
    match permissions with
    | Option.some p => dictSet [] "permissions" (Val.str (toString p))
    | Option.none => dictSet [] "permissions" (Val.str "0")
  let options :=
    match actualColour color colour with
    | ColourArg.intVal n => dictSet options "color" (Val.int n)
    | ColourArg.colourObj v => dictSet options "color" (Val.int (Int.ofNat v))
  let options :=
    match hoist with
    | Option.some h => dictSet options "hoist" (Val.bool h)
    | Option.none => options
  let options :=
    match display_icon with
    | Option.some (DisplayIcon.bytes bs) =>
      dictSet options "icon" (Val.str (bytesToBase64Data bs))
    | Option.some (DisplayIcon.str s) =>
      dictSet options "unicode_emoji" (Val.str s)
    | Option.none => options
  match mentionable with
  | Option.some m => dictSet options "mentionable" (Val.bool m)
  | Option.none => options

/-- `CreateGuild.add_role` (lines 615-678).  The options dict is assembled
exactly as in the source and `CreateGuildRole(name, **options)` binds it
against the `__init__` keyword parameters, raising `TypeError` on an
unexpected keyword; on success (never reached, see the C3 theorem) the
role is stored in the role table. -/
def CreateGuild.add_role (g : CreateGuild) (name : Option String)
    (permissions : Option Nat) (color : Option ColourArg)
    (colour : Option ColourArg) (hoist : Option Bool)
    (display_icon : Option DisplayIcon) (mentionable : Option Bool)
    (freshId : Nat) : Except PyErr CreateGuildRole × CreateGuild :=
  match (roleOptions permissions color colour hoist display_icon
      mentionable).find? (fun kv => !(roleInitKeywords.contains kv.1)) with
  | Option.some kv =>
    (Except.error (PyErr.typeError ("unexpected keyword argument " ++ kv.1)), g)
  | Option.none =>
    let rname :=
      match name with
      | Option.some n => n
      | Option.none => "new role"
    let role := mkRoleFromKeywords freshId rname
      (roleOptions permissions color colour hoist display_icon mentionable)
    (Except.ok role, g.insertRole role)


/-- Does `owNormalize` succeed with a well-formed mapping? -/
def owArgOk : Option OwArg → Bool
  | Option.none => true
  | Option.some (OwArg.mapping m) => owAllValid m
  | Option.some (OwArg.notMapping _) => false

/-- The `ValueError` message the category validation produces for a bad id:
it names the offending id in both cases. -/
def categoryErrMsg (channels : List (Nat × CreateGuildChannel)) (p : Nat) :
    String :=
  match dictGet channels p with
  | Option.none => "No such category with ID " ++ toString p
  | Option.some _ => "Channel with ID " ++ toString p ++ " is not a category"

/-- A fresh builder, as produced by `CreateGuild.__init__` with only a name
(all optional settings at their defaults, empty channel and role tables). -/
def g0 : CreateGuild :=
  { name := "My Guild", icon := Option.none, afk_timeout := Option.none,
    _afk_channel := Option.none, _system_channel := Option.none,
    system_channel_flags := Option.none, verification_level := 0,
    default_message_notifications := 0, explicit_content_filter := 0,
    _channels := [], _roles := [] }

/-- A one-entry overwrites mapping: a role target with allow 2 / deny 4. -/
def owEx : List (OwTarget × OwVal) := [(OwTarget.role 1, OwVal.po 2 4)]

/-- The channel produced by the C1 example call. -/
def c1chan : CreateGuildChannel :=
  { id := 50, type := ChannelType.text, name := "general",
    position := Option.none, overwrites := owEx, _options := [] }

/-- The forum channel produced when a plain int is passed as
`default_sort_order`. -/
def c2chanRaw : CreateGuildChannel :=
  { id := 60, type := ChannelType.forum, name := "f",
    position := Option.none, overwrites := [],
    _options := [("default_sort_order", Val.int 5)] }

/-- The forum channel produced when a genuine `ForumOrderType` is passed as
`default_sort_order`. -/
def c2chanEnum : CreateGuildChannel :=
  { id := 61, type := ChannelType.forum, name := "f",
    position := Option.none, overwrites := [],
    _options := [("default_sort_order", Val.forumOrder 1)] }

/-- The voice channel produced when a plain string is passed as
`video_quality_mode`. -/
def c2chanVqm : CreateGuildChannel :=
  { id := 62, type := ChannelType.voice, name := "v",
    position := Option.none, overwrites := [],
    _options := [("video_quality_mode", Val.str "x")] }

/-- The channel produced when a category reference with id 0 is passed. -/
def c4chan : CreateGuildChannel :=
  { id := 80, type := ChannelType.text, name := "x",
    position := Option.none, overwrites := [], _options := [] }

/-- A category channel sitting in a builder's table at local id 5. -/
def catChan : CreateGuildChannel :=
  { id := 5, type := ChannelType.category, name := "info",
    position := Option.none, overwrites := [], _options := [] }

/-- A builder holding the category channel `catChan`. -/
def gCat : CreateGuild := { g0 with _channels := [(5, catChan)] }

/-- A text (non-category) channel sitting in a builder's table at local
id 6. -/
def txtChan : CreateGuildChannel :=
  { id := 6, type := ChannelType.text, name := "t",
    position := Option.none, overwrites := [], _options := [] }

/-- A builder holding the text channel `txtChan`. -/
def gTxt : CreateGuild := { g0 with _channels := [(6, txtChan)] }

/-- The channel produced by the C6 example call: the supplied `category`
is renamed to `parent_id`, the unknown `junk` key is dropped. -/
def c6chan : CreateGuildChannel :=
  { id := 90, type := ChannelType.text, name := "rules",
    position := Option.none, overwrites := [],
    _options := [("parent_id", Val.int 5), ("topic", Val.str "hi")] }

/-- The channel produced by the C8 system-channel witness call. -/
def c8chan : CreateGuildChannel :=
  { id := 93, type := ChannelType.text, name := "sys",
    position := Option.none, overwrites := [], _options := [] }

/-- The voice channel produced by the C8 afk-channel witness call. -/
def c8vchan : CreateGuildChannel :=
  { id := 94, type := ChannelType.voice, name := "afk",
    position := Option.none, overwrites := [], _options := [] }

/-- A builder that already has a channel stored at local id 42, used to
exercise an id collision. -/
def collChan : CreateGuildChannel :=
  { id := 42, type := ChannelType.text, name := "old",
    position := Option.none, overwrites := [], _options := [] }

def gColl : CreateGuild := { g0 with _channels := [(42, collChan)] }

/-- The colliding replacement channel of the C10 witness. -/
def c10chan : CreateGuildChannel :=
  { id := 42, type := ChannelType.voice, name := "new",
    position := Option.none, overwrites := [], _options := [] }

/-- Roles used to exercise an id collision in the role table. -/
def oldRole : CreateGuildRole :=
  { id := 7, name := "old", colour := Val.missing, hoist := Val.missing,
    icon := Val.missing, unicode_emoji := Val.missing,
    position := Val.missing, permissions := Val.permissionsObj 0,
    tags := Val.missing, mentionable := Val.missing }

def newRole : CreateGuildRole :=
  { id := 7, name := "new", colour := Val.missing, hoist := Val.missing,
    icon := Val.missing, unicode_emoji := Val.missing,
    position := Val.missing, permissions := Val.permissionsObj 8,
    tags := Val.missing, mentionable := Val.missing }

/-- A builder that already has a role stored at local id 7. -/
def gRole : CreateGuild := { g0 with _roles := [(7, oldRole)] }


theorem dictKeys_nil {α β : Type} : dictKeys ([] : List (α × β)) = [] := rfl

theorem dictKeys_cons {α β : Type} (a : α) (b : β) (rest : List (α × β)) :
    dictKeys ((a, b) :: rest) = a :: dictKeys rest := rfl

theorem dictGet_dictSet_self {α β : Type} [DecidableEq α]
    (d : List (α × β)) (k : α) (v : β) :
    dictGet (dictSet d k v) k = Option.some v := by
  induction d with
  | nil => simp [dictSet, dictGet]
  | cons kv rest ih =>
    obtain ⟨a, b⟩ := kv
    by_cases h : a = k <;> simp [dictSet, dictGet, h, ih]

theorem dictGet_dictSet_ne {α β : Type} [DecidableEq α]
    (d : List (α × β)) (k k' : α) (v : β) (h : k' ≠ k) :
    dictGet (dictSet d k v) k' = dictGet d k' := by
  induction d with
  | nil => simp [dictSet, dictGet, Ne.symm h]
  | cons kv rest ih =>
    obtain ⟨a, b⟩ := kv
    by_cases ha : a = k
    · subst ha
      simp [dictSet, dictGet, Ne.symm h]
    · simp [dictSet, dictGet, ha, ih]

theorem dictGet_dictErase_ne {α β : Type} [DecidableEq α]
    (d : List (α × β)) (k k' : α) (h : k' ≠ k) :
    dictGet (dictErase d k) k' = dictGet d k' := by
  induction d with
  | nil => simp [dictErase]
  | cons kv rest ih =>
    obtain ⟨a, b⟩ := kv
    by_cases ha : a = k
    · subst ha
      simp [dictErase, dictGet, Ne.symm h]
    · simp [dictErase, dictGet, ha, ih]

theorem dictSet_length_of_isSome {α β : Type} [DecidableEq α]
    (d : List (α × β)) (k : α) (v : β) (h : (dictGet d k).isSome) :
    (dictSet d k v).length = d.length := by
  induction d with
  | nil => simp [dictGet] at h
  | cons kv rest ih =>
    obtain ⟨a, b⟩ := kv
    by_cases ha : a = k
    · simp [dictSet, ha]
    · simp [dictGet, ha] at h
      simp [dictSet, ha, ih h]

theorem dictKeys_dictSet_of_not_mem {α β : Type} [DecidableEq α]
    (d : List (α × β)) (k : α) (v : β) (h : k ∉ dictKeys d) :
    dictKeys (dictSet d k v) = dictKeys d ++ [k] := by
  induction d with
  | nil => simp [dictSet, dictKeys]
  | cons kv rest ih =>
    obtain ⟨a, b⟩ := kv
    rw [dictKeys_cons] at h
    simp only [List.mem_cons, not_or] at h
    rw [dictSet, if_neg (fun hh : a = k => h.1 hh.symm), dictKeys_cons,
      dictKeys_cons, ih h.2, List.cons_append]

theorem dictGet_eq_none_of_not_mem {α β : Type} [DecidableEq α]
    (d : List (α × β)) (k : α) (h : k ∉ dictKeys d) :
    dictGet d k = Option.none := by
  induction d with
  | nil => simp [dictGet]
  | cons kv rest ih =>
    obtain ⟨a, b⟩ := kv
    rw [dictKeys_cons] at h
    simp only [List.mem_cons, not_or] at h
    rw [dictGet, if_neg (fun hh : a = k => h.1 hh.symm)]
    exact ih h.2

theorem mem_dictKeys_dictSet {α β : Type} [DecidableEq α]
    (d : List (α × β)) (k a : α) (v : β)
    (h : a ∈ dictKeys (dictSet d k v)) : a = k ∨ a ∈ dictKeys d := by
  induction d with
  | nil => simpa [dictSet, dictKeys] using h
  | cons kv rest ih =>
    obtain ⟨a', b'⟩ := kv
    by_cases ha : a' = k
    · rw [dictSet, if_pos ha, dictKeys_cons] at h
      rcases List.mem_cons.mp h with h' | h'
      · exact Or.inl h'
      · exact Or.inr (by rw [dictKeys_cons]; exact List.mem_cons_of_mem a' h')
    · rw [dictSet, if_neg ha, dictKeys_cons] at h
      rcases List.mem_cons.mp h with h' | h'
      · exact Or.inr (by rw [dictKeys_cons, h']; exact List.mem_cons_self a' _)
      · rcases ih h' with h'' | h''
        · exact Or.inl h''
        · exact Or.inr (by rw [dictKeys_cons]; exact List.mem_cons_of_mem a' h'')

theorem owNormalize_ok_of_argOk (ow : Option OwArg) (h : owArgOk ow = true) :
    ∃ m, owNormalize ow = Except.ok m ∧ owAllValid m = true := by
  match ow with
  | Option.none => exact ⟨[], rfl, rfl⟩
  | Option.some (OwArg.mapping m) => exact ⟨m, rfl, h⟩
  | Option.some (OwArg.notMapping cls) => simp [owArgOk] at h

theorem checkOverwrites_ok_of_valid (ow : List (OwTarget × OwVal))
    (h : owAllValid ow = true) :
    ∃ ps, checkOverwrites ow = Except.ok ps := by
  induction ow with
  | nil => exact ⟨[], rfl⟩
  | cons kv rest ih =>
    obtain ⟨t, v⟩ := kv
    match v, h with
    | OwVal.po allow deny, h =>
      obtain ⟨ps, hps⟩ := ih (by rw [owAllValid] at h; exact h)
      exact ⟨expandOverwrite t allow deny :: ps, by rw [checkOverwrites, hps]⟩

theorem categoryBranch_kwargs (channels : List (Nat × CreateGuildChannel))
    (kwargs : List (String × Val)) (o : List (String × Val))
    (k2 : List (String × Val))
    (h : categoryBranch channels kwargs = Except.ok (o, k2)) :
    k2 = dictErase kwargs "category" := by
  unfold categoryBranch at h
  split at h
  · simp only [Except.ok.injEq, Prod.mk.injEq] at h
    exact h.2.symm
  · split at h
    · split at h
      · exact absurd h (by simp)
      · split at h
        · simp only [Except.ok.injEq, Prod.mk.injEq] at h
          exact h.2.symm
        · split at h
          · exact absurd h (by simp)
          · split at h
            · exact absurd h (by simp)
            · simp only [Except.ok.injEq, Prod.mk.injEq] at h
              exact h.2.symm
    · simp only [Except.ok.injEq, Prod.mk.injEq] at h
      exact h.2.symm

/-- C1: the claim says the serialized channel's permission_overwrites array
consists of the expanded allow/deny/id/type records.  In the code the
expansion (`perms`, lines 499-512) is computed and then discarded: the
channel is constructed with the raw mapping (line 578) and `_to_dict`
emits that raw mapping (line 167).  At a concrete one-entry mapping the
payload holds the raw mapping, which differs from the expanded array the
claim (and the spec's wire contract) describes. -/
theorem c1_overwrites_raw_not_expanded :
    g0.add_channel ChannelType.text "general" Option.none
        (Option.some (OwArg.mapping owEx)) [] 50
      = (Except.ok c1chan, { g0 with _channels := [(50, c1chan)] })
    ∧ dictGet c1chan._to_dict "permission_overwrites"
      = Option.some (Val.owMap owEx)
    ∧ checkOverwrites owEx
      = Except.ok [[("allow", Val.int 2), ("deny", Val.int 4),
          ("id", Val.int 1), ("type", Val.int 0)]]
    ∧ Val.owMap owEx
      ≠ Val.list [Val.dict [("allow", Val.int 2), ("deny", Val.int 4),
          ("id", Val.int 1), ("type", Val.int 0)]] :=
  ⟨rfl, rfl, rfl, fun h => Val.noConfusion h⟩

/-- C2: the claim says a forum channel with a non-`ForumOrderType`
`default_sort_order` (or voice with a bad `video_quality_mode`) raises
`TypeError`, and valid enums are serialized by `.value`.  The validation
branches (lines 528-570) are `elif`s of
`if channel_type is not ChannelType.category` and therefore never run:
a plain int `5` is accepted and lands raw in the payload, a genuine
`ForumOrderType` also lands as the raw enum object and not as its
`.value`, and a voice channel accepts a plain string for
`video_quality_mode`. -/
theorem c2_enum_validation_never_runs :
    g0.add_channel ChannelType.forum "f" Option.none Option.none
        [("default_sort_order", Val.int 5)] 60
      = (Except.ok c2chanRaw, { g0 with _channels := [(60, c2chanRaw)] })
    ∧ dictGet c2chanRaw._to_dict "default_sort_order"
      = Option.some (Val.int 5)
    ∧ g0.add_channel ChannelType.forum "f" Option.none Option.none
        [("default_sort_order", Val.forumOrder 1)] 61
      = (Except.ok c2chanEnum, { g0 with _channels := [(61, c2chanEnum)] })
    ∧ dictGet c2chanEnum._to_dict "default_sort_order"
      = Option.some (Val.forumOrder 1)
    ∧ Val.forumOrder 1 ≠ Val.int 1
    ∧ g0.add_channel ChannelType.voice "v" Option.none Option.none
        [("video_quality_mode", Val.str "x")] 62
      = (Except.ok c2chanVqm, { g0 with _channels := [(62, c2chanVqm)] }) :=
  ⟨rfl, rfl, rfl, rfl, fun h => Val.noConfusion h, rfl⟩

/-- C3: the claim says `add_role(name="Admins", hoist=True)` serializes to
a role entry with hoist true, permissions "0" and the default colour.  In
the code `add_role` always assembles an options dict containing a `color`
key (lines 655-659) and then calls `CreateGuildRole(name, **options)`
(line 676), whose `__init__` has a `colour` parameter but no `color`
(lines 74-86): every call raises `TypeError` before any role exists, so
no serialized role entry is ever produced. -/
theorem c3_add_role_always_type_errors :
    g0.add_role (Option.some "Admins") Option.none Option.none Option.none
        (Option.some true) Option.none Option.none 70
      = (Except.error (PyErr.typeError "unexpected keyword argument color"), g0) :=
  rfl

/-- C7: the claim says `display_icon` as bytes yields a base64 `icon`
field and as a string yields a `unicode_emoji` field.  Both calls die in
the same `CreateGuildRole(name, **options)` `TypeError` as C3, before any
role (and hence any serialized icon field) exists. -/
theorem c7_display_icon_never_serialized :
    g0.add_role Option.none Option.none Option.none Option.none Option.none
        (Option.some (DisplayIcon.bytes [1, 2, 3])) Option.none 71
      = (Except.error (PyErr.typeError "unexpected keyword argument color"), g0)
    ∧ g0.add_role Option.none Option.none Option.none Option.none Option.none
        (Option.some (DisplayIcon.str "star")) Option.none 72
      = (Except.error (PyErr.typeError "unexpected keyword argument color"), g0) :=
  ⟨rfl, rfl⟩

/-- C4 counterexample: a category argument whose id is 0 is absent from the
empty builder's channel table, yet the call does not raise `ValueError`:
`parent_id = 0` is falsy, so `if parent_id:` (line 520) skips the
validation, the channel is created, and the table grows. -/
theorem c4_zero_id_skips_validation :
    g0.add_channel ChannelType.text "x" Option.none Option.none
        [("category", Val.channelRef 0)] 80
      = (Except.ok c4chan, { g0 with _channels := [(80, c4chan)] })
    ∧ g0._channels = []
    ∧ ([(80, c4chan)] : List (Nat × CreateGuildChannel)) ≠ [] :=
  ⟨rfl, rfl, fun h => List.noConfusion h⟩

/-- C6 counterexample: with a valid category at id 5 supplied as
`category`, the whitelisted-and-supplied keys beyond the base fields are
exactly `category` and `topic`, but the payload instead carries
`parent_id` (a key in no whitelist) and no `category` key; the unknown
`junk` key is dropped. -/
theorem c6_category_renamed_to_parent_id :
    gCat.add_channel ChannelType.text "rules" Option.none Option.none
        [("category", Val.channelRef 5), ("junk", Val.int 9),
         ("topic", Val.str "hi")] 90
      = (Except.ok c6chan, { gCat with _channels := [(5, catChan), (90, c6chan)] })
    ∧ dictGet c6chan._to_dict "category" = Option.none
    ∧ dictGet c6chan._to_dict "parent_id" = Option.some (Val.int 5)
    ∧ dictGet c6chan._to_dict "junk" = Option.none
    ∧ "category" ∈ ["category", "news", "topic", "slowmode_delay", "nsfw",
        "overwrites", "default_auto_archive_duration",
        "default_thread_slowmode_delay"]
    ∧ "parent_id" ∉ ["category", "news", "topic", "slowmode_delay", "nsfw",
        "overwrites", "default_auto_archive_duration",
        "default_thread_slowmode_delay"] :=
  ⟨rfl, rfl, rfl, rfl, by decide, by decide⟩

/-- C4 (amended): for every non-category supported kind, a well-formed
overwrites argument, and a category argument carrying a nonzero id that is
missing from the channel table or names a non-category channel, the call
raises `ValueError` with a message naming the offending id
(`categoryErrMsg`), and the builder is returned unchanged. -/
theorem c4_category_validation (g : CreateGuild) (ct : ChannelType)
    (name : String) (pos : Option Int) (ow : Option OwArg)
    (kwargs : List (String × Val)) (fid p : Nat) (wl : List String)
    (hwl : kwargs_per_type ct = Option.some wl)
    (hnc : ct ≠ ChannelType.category)
    (how : owArgOk ow = true)
    (hcat : dictGet kwargs "category" = Option.some (Val.channelRef p))
    (hp : p ≠ 0)
    (hbad : ∀ parent, dictGet g._channels p = Option.some parent →
      parent.type ≠ ChannelType.category) :
    g.add_channel ct name pos ow kwargs fid
      = (Except.error (PyErr.valueError (categoryErrMsg g._channels p)), g) := by
  obtain ⟨m, hm, hmv⟩ := owNormalize_ok_of_argOk ow how
  obtain ⟨ps, hps⟩ := checkOverwrites_ok_of_valid m hmv
  have hcb : categoryBranch g._channels kwargs
      = Except.error (PyErr.valueError (categoryErrMsg g._channels p)) := by
    unfold categoryBranch categoryErrMsg
    rw [hcat]
    simp only [Val.truthy, Val.getId, if_pos rfl, if_neg hp]
    cases hgp : dictGet g._channels p with
    | none => rfl
    | some parent => simp [hbad parent hgp]
  unfold CreateGuild.add_channel
  simp only [hwl, hm, hps]
  unfold optionsBranch
  rw [if_pos hnc, hcb]

/-- C4 witness: a voice channel added with a category reference to the
text (non-category) channel at id 6 fails with the id-naming `ValueError`
and the builder is unchanged. -/
theorem c4_category_validation_witness :
    gTxt.add_channel ChannelType.voice "vv" Option.none Option.none
        [("category", Val.channelRef 6)] 91
      = (Except.error (PyErr.valueError "Channel with ID 6 is not a category"), gTxt) := by
  have h := c4_category_validation gTxt ChannelType.voice "vv" Option.none
    Option.none [("category", Val.channelRef 6)] 91 6
    ["category", "bitrate", "user_limit", "rtc_region", "video_quality_mode",
     "overwrites"]
    rfl (by decide) rfl rfl (by decide)
    (fun parent hpar => by
      rw [show dictGet gTxt._channels 6 = Option.some txtChan from rfl] at hpar
      injection hpar with h2
      rw [← h2]
      decide)
  exact h

/-- C5: a channel kind outside the `kwargs_per_type` table raises
`TypeError` and returns the builder unchanged; more generally, every
failing `add_channel` or `add_role` call returns the builder exactly as it
was, leaving no partially-constructed entry in either table. -/
theorem c5_failures_leave_builder_unchanged :
    (∀ (g : CreateGuild) (ct : ChannelType) (name : String) (pos : Option Int)
        (ow : Option OwArg) (kwargs : List (String × Val)) (fid : Nat),
      kwargs_per_type ct = Option.none →
      g.add_channel ct name pos ow kwargs fid
        = (Except.error (PyErr.typeError "Invalid channel type"), g))
    ∧ (∀ (g : CreateGuild) (ct : ChannelType) (name : String) (pos : Option Int)
        (ow : Option OwArg) (kwargs : List (String × Val)) (fid : Nat)
        (e : PyErr) (g' : CreateGuild),
      g.add_channel ct name pos ow kwargs fid = (Except.error e, g') → g' = g)
    ∧ (∀ (g : CreateGuild) (name : Option String) (perms : Option Nat)
        (color colour : Option ColourArg) (hoist : Option Bool)
        (dIcon : Option DisplayIcon) (ment : Option Bool) (fid : Nat)
        (e : PyErr) (g' : CreateGuild),
      g.add_role name perms color colour hoist dIcon ment fid
        = (Except.error e, g') → g' = g) := by
  refine ⟨?_, ?_, ?_⟩
  · intro g ct name pos ow kwargs fid h
    unfold CreateGuild.add_channel
    rw [h]
  · intro g ct name pos ow kwargs fid e g' h
    unfold CreateGuild.add_channel at h
    cases hk : kwargs_per_type ct
    case none =>
      simp only [hk, Prod.mk.injEq] at h
      exact h.2.symm
    case some wl =>
      simp only [hk] at h
      cases hm : owNormalize ow
      case error e2 =>
        simp only [hm, Prod.mk.injEq] at h
        exact h.2.symm
      case ok m =>
        simp only [hm] at h
        cases hc : checkOverwrites m
        case error e2 =>
          simp only [hc, Prod.mk.injEq] at h
          exact h.2.symm
        case ok ps =>
          simp only [hc] at h
          cases hb : optionsBranch g._channels ct kwargs
          case error e2 =>
            simp only [hb, Prod.mk.injEq] at h
            exact h.2.symm
          case ok pr =>
            obtain ⟨options0, kwargs2⟩ := pr
            simp only [hb] at h
            simp at h
  · intro g name perms color colour hoist dIcon ment fid e g' h
    unfold CreateGuild.add_role at h
    cases hf : (roleOptions perms color colour hoist dIcon ment).find?
        (fun kv => !(roleInitKeywords.contains kv.1))
    case none =>
      simp only [hf] at h
      simp at h
    case some kv =>
      simp only [hf, Prod.mk.injEq] at h
      exact h.2.symm

theorem optionsBranch_kwargs (channels : List (Nat × CreateGuildChannel))
    (ct : ChannelType) (kwargs o k2 : List (String × Val))
    (hnc : ct ≠ ChannelType.category)
    (h : optionsBranch channels ct kwargs = Except.ok (o, k2)) :
    k2 = dictErase kwargs "category" := by
  unfold optionsBranch at h
  rw [if_pos hnc] at h
  exact categoryBranch_kwargs channels kwargs o k2 h

theorem truthyLookup_dictErase_ne (kwargs : List (String × Val))
    (k k' : String) (h : k' ≠ k) :
    truthyLookup (dictErase kwargs k) k' = truthyLookup kwargs k' := by
  unfold truthyLookup
  rw [dictGet_dictErase_ne kwargs k k' h]

theorem dictSet_isEmpty_false {α β : Type} [DecidableEq α]
    (d : List (α × β)) (k : α) (v : β) : (dictSet d k v).isEmpty = false := by
  cases d with
  | nil => rfl
  | cons kv rest =>
    obtain ⟨a, b⟩ := kv
    rw [dictSet]
    split <;> rfl

theorem toDict_system_channel_id (g2 : CreateGuild) (ch : CreateGuildChannel)
    (hsys : g2._system_channel = Option.some ch) (hroles : g2._roles = []) :
    ∃ p, g2._to_dict = Except.ok p
      ∧ dictGet p "system_channel_id" = Option.some (Val.int (Int.ofNat ch.id)) := by
  unfold CreateGuild._to_dict CreateGuild.system_channel CreateGuild.afk_channel
  rw [hsys, hroles]
  cases hce : g2._channels.isEmpty <;>
    simp only [hce, List.isEmpty_nil, Bool.not_true, Bool.not_false,
      Bool.false_eq_true, if_false, if_true, ite_true, ite_false]
  · refine ⟨_, rfl, ?_⟩
    rw [dictGet_dictSet_ne _ _ _ _ (by decide : "system_channel_id" ≠ "channels"),
      dictGet_dictSet_self]
  · exact ⟨_, rfl, by rw [dictGet_dictSet_self]⟩

theorem toDict_afk_channel_id (g2 : CreateGuild) (ch : CreateGuildChannel)
    (hafk : g2._afk_channel = Option.some ch) (hroles : g2._roles = []) :
    ∃ p, g2._to_dict = Except.ok p
      ∧ dictGet p "afk_channel_id" = Option.some (Val.int (Int.ofNat ch.id)) := by
  unfold CreateGuild._to_dict CreateGuild.system_channel CreateGuild.afk_channel
  rw [hafk, hroles]
  cases hsc : g2._system_channel <;>
    cases hce : g2._channels.isEmpty <;>
    simp only [hsc, hce, List.isEmpty_nil, Bool.not_true, Bool.not_false,
      Bool.false_eq_true, if_false, if_true, ite_true, ite_false]
  · refine ⟨_, rfl, ?_⟩
    rw [dictGet_dictSet_ne _ _ _ _ (by decide : "afk_channel_id" ≠ "channels"),
      dictGet_dictSet_self]
  · exact ⟨_, rfl, by rw [dictGet_dictSet_self]⟩
  · refine ⟨_, rfl, ?_⟩
    rw [dictGet_dictSet_ne _ _ _ _ (by decide : "afk_channel_id" ≠ "channels"),
      dictGet_dictSet_ne _ _ _ _ (by decide : "afk_channel_id" ≠ "system_channel_id"),
      dictGet_dictSet_self]
  · refine ⟨_, rfl, ?_⟩
    rw [dictGet_dictSet_ne _ _ _ _ (by decide : "afk_channel_id" ≠ "system_channel_id"),
      dictGet_dictSet_self]

/-- C9: a builder whose channel and role tables are both empty serializes
without a `channels` key and without a `roles` key. -/
theorem c9_empty_tables_omit_keys (g : CreateGuild)
    (hc : g._channels = []) (hr : g._roles = []) :
    ∃ p, g._to_dict = Except.ok p
      ∧ dictGet p "channels" = Option.none
      ∧ dictGet p "roles" = Option.none := by
  unfold CreateGuild._to_dict CreateGuild.system_channel CreateGuild.afk_channel
  rw [hc, hr]
  cases g.icon <;> cases g.afk_timeout <;> cases g.system_channel_flags <;>
    cases g._afk_channel <;> cases g._system_channel <;>
    exact ⟨_, rfl, rfl, rfl⟩

/-- C9 witness: the fresh builder `g0`. -/
theorem c9_empty_tables_omit_keys_witness :
    ∃ p, g0._to_dict = Except.ok p
      ∧ dictGet p "channels" = Option.none
      ∧ dictGet p "roles" = Option.none :=
  c9_empty_tables_omit_keys g0 rfl rfl

theorem flagUpdate_channels (g : CreateGuild) (ct : ChannelType)
    (kwargs : List (String × Val)) (ch : CreateGuildChannel) :
    (flagUpdate g ct kwargs ch)._channels = g._channels := by
  unfold flagUpdate
  split
  · split <;> rfl
  · split
    · split <;> rfl
    · rfl

theorem flagUpdate_roles (g : CreateGuild) (ct : ChannelType)
    (kwargs : List (String × Val)) (ch : CreateGuildChannel) :
    (flagUpdate g ct kwargs ch)._roles = g._roles := by
  unfold flagUpdate
  split
  · split <;> rfl
  · split
    · split <;> rfl
    · rfl

theorem add_channel_ok_inversion (g : CreateGuild) (ct : ChannelType)
    (name : String) (pos : Option Int) (ow : Option OwArg)
    (kwargs : List (String × Val)) (fid : Nat) (ch : CreateGuildChannel)
    (g' : CreateGuild)
    (hok : g.add_channel ct name pos ow kwargs fid = (Except.ok ch, g')) :
    ∃ wl owm options0 kwargs2,
      kwargs_per_type ct = Option.some wl
      ∧ owNormalize ow = Except.ok owm
      ∧ optionsBranch g._channels ct kwargs = Except.ok (options0, kwargs2)
      ∧ ch = { id := fid, type := ct, name := name, position := pos,
               overwrites := owm,
               _options := applyWhitelist wl kwargs2 options0 }
      ∧ g' = { flagUpdate g ct kwargs2 ch with
               _channels := dictSet (flagUpdate g ct kwargs2 ch)._channels fid ch } := by
  unfold CreateGuild.add_channel at hok
  cases hk : kwargs_per_type ct
  case none =>
    rw [hk] at hok
    exact absurd hok (by simp)
  case some wl =>
    simp only [hk] at hok
    cases hm : owNormalize ow
    case error e =>
      simp only [hm] at hok
      exact absurd hok (by simp)
    case ok owm =>
      simp only [hm] at hok
      cases hc : checkOverwrites owm
      case error e =>
        simp only [hc] at hok
        exact absurd hok (by simp)
      case ok ps =>
        simp only [hc] at hok
        cases hb : optionsBranch g._channels ct kwargs
        case error e =>
          simp only [hb] at hok
          exact absurd hok (by simp)
        case ok pr =>
          obtain ⟨options0, kwargs2⟩ := pr
          simp only [hb, Prod.mk.injEq, Except.ok.injEq] at hok
          obtain ⟨hch, hg⟩ := hok
          rw [hch] at hg
          exact ⟨wl, owm, options0, kwargs2, rfl, rfl, rfl, hch.symm, hg.symm⟩

/-- C8: a successful text `add_channel` with a truthy `system_channel`
flag makes the new channel the builder's system channel, and the guild
payload then carries `system_channel_id` equal to that channel's local id;
symmetrically a voice add with a truthy `afk_channel` flag sets the AFK
reference and `afk_channel_id`.  (Every reachable builder has an empty
role table, since `add_role` never succeeds; the role hypothesis makes the
serialization total.) -/
theorem c8_system_and_afk_references :
    (∀ (g : CreateGuild) (name : String) (pos : Option Int) (ow : Option OwArg)
        (kwargs : List (String × Val)) (fid : Nat) (ch : CreateGuildChannel)
        (g' : CreateGuild),
      g.add_channel ChannelType.text name pos ow kwargs fid = (Except.ok ch, g') →
      truthyLookup kwargs "system_channel" = true →
      g._roles = [] →
      g'.system_channel = Option.some ch
        ∧ ∃ p, g'._to_dict = Except.ok p
            ∧ dictGet p "system_channel_id" = Option.some (Val.int (Int.ofNat ch.id)))
    ∧ (∀ (g : CreateGuild) (name : String) (pos : Option Int) (ow : Option OwArg)
        (kwargs : List (String × Val)) (fid : Nat) (ch : CreateGuildChannel)
        (g' : CreateGuild),
      g.add_channel ChannelType.voice name pos ow kwargs fid = (Except.ok ch, g') →
      truthyLookup kwargs "afk_channel" = true →
      g._roles = [] →
      g'.afk_channel = Option.some ch
        ∧ ∃ p, g'._to_dict = Except.ok p
            ∧ dictGet p "afk_channel_id" = Option.some (Val.int (Int.ofNat ch.id))) := by
  constructor
  · intro g name pos ow kwargs fid ch g' hok hflag hroles
    obtain ⟨wl, owm, o0, k2, hk, hm, hb, hch, hg⟩ :=
      add_channel_ok_inversion g ChannelType.text name pos ow kwargs fid ch g' hok
    have hk2 : k2 = dictErase kwargs "category" :=
      optionsBranch_kwargs g._channels ChannelType.text kwargs o0 k2 (by decide) hb
    have hfl : truthyLookup k2 "system_channel" = true := by
      rw [hk2, truthyLookup_dictErase_ne kwargs "category" "system_channel" (by decide)]
      exact hflag
    have hsys : g'._system_channel = Option.some ch := by
      rw [hg]
      show (flagUpdate g ChannelType.text k2 ch)._system_channel = _
      unfold flagUpdate
      rw [if_pos rfl, if_pos hfl]
    have hroles' : g'._roles = [] := by
      rw [hg]
      show (flagUpdate g ChannelType.text k2 ch)._roles = []
      rw [flagUpdate_roles]
      exact hroles
    exact ⟨hsys, toDict_system_channel_id g' ch hsys hroles'⟩
  · intro g name pos ow kwargs fid ch g' hok hflag hroles
    obtain ⟨wl, owm, o0, k2, hk, hm, hb, hch, hg⟩ :=
      add_channel_ok_inversion g ChannelType.voice name pos ow kwargs fid ch g' hok
    have hk2 : k2 = dictErase kwargs "category" :=
      optionsBranch_kwargs g._channels ChannelType.voice kwargs o0 k2 (by decide) hb
    have hfl : truthyLookup k2 "afk_channel" = true := by
      rw [hk2, truthyLookup_dictErase_ne kwargs "category" "afk_channel" (by decide)]
      exact hflag
    have hafk : g'._afk_channel = Option.some ch := by
      rw [hg]
      show (flagUpdate g ChannelType.voice k2 ch)._afk_channel = _
      unfold flagUpdate
      rw [if_neg (by decide : ¬ ChannelType.voice = ChannelType.text),
        if_pos rfl, if_pos hfl]
    have hroles' : g'._roles = [] := by
      rw [hg]
      show (flagUpdate g ChannelType.voice k2 ch)._roles = []
      rw [flagUpdate_roles]
      exact hroles
    exact ⟨hafk, toDict_afk_channel_id g' ch hafk hroles'⟩

/-- C5 witness: an unsupported kind (`news`) fails leaving `g0` unchanged;
a failing category reference leaves `gTxt` unchanged; a failing `add_role`
leaves `g0` unchanged. -/
theorem c5_failures_witness :
    g0.add_channel ChannelType.news "n" Option.none Option.none [] 92
      = (Except.error (PyErr.typeError "Invalid channel type"), g0)
    ∧ (gTxt.add_channel ChannelType.voice "vv" Option.none Option.none
        [("category", Val.channelRef 6)] 91).2 = gTxt
    ∧ (g0.add_role (Option.some "Admins") Option.none Option.none Option.none
        Option.none Option.none Option.none 73).2 = g0 := by
  refine ⟨?_, ?_, ?_⟩
  · exact c5_failures_leave_builder_unchanged.1 g0 ChannelType.news "n"
      Option.none Option.none [] 92 rfl
  · exact c5_failures_leave_builder_unchanged.2.1 gTxt ChannelType.voice "vv"
      Option.none Option.none [("category", Val.channelRef 6)] 91
      (PyErr.valueError "Channel with ID 6 is not a category") _ rfl
  · exact c5_failures_leave_builder_unchanged.2.2 g0 (Option.some "Admins")
      Option.none Option.none Option.none Option.none Option.none Option.none 73
      (PyErr.typeError "unexpected keyword argument color") _ rfl

/-- C8 witness: concrete system-channel and AFK-channel calls on `g0`. -/
theorem c8_system_and_afk_references_witness :
    ((g0.add_channel ChannelType.text "sys" Option.none Option.none
        [("system_channel", Val.bool true)] 93).2.system_channel
      = Option.some c8chan
      ∧ ∃ p, (g0.add_channel ChannelType.text "sys" Option.none Option.none
          [("system_channel", Val.bool true)] 93).2._to_dict = Except.ok p
          ∧ dictGet p "system_channel_id"
            = Option.some (Val.int (Int.ofNat c8chan.id)))
    ∧ ((g0.add_channel ChannelType.voice "afk" Option.none Option.none
        [("afk_channel", Val.bool true)] 94).2.afk_channel
      = Option.some c8vchan
      ∧ ∃ p, (g0.add_channel ChannelType.voice "afk" Option.none Option.none
          [("afk_channel", Val.bool true)] 94).2._to_dict = Except.ok p
          ∧ dictGet p "afk_channel_id"
            = Option.some (Val.int (Int.ofNat c8vchan.id))) := by
  constructor
  · exact c8_system_and_afk_references.1 g0 "sys" Option.none Option.none
      [("system_channel", Val.bool true)] 93 c8chan _ rfl rfl rfl
  · exact c8_system_and_afk_references.2 g0 "afk" Option.none Option.none
      [("afk_channel", Val.bool true)] 94 c8vchan _ rfl rfl rfl

/-- C10: local-id uniqueness is assumed, never enforced.  A successful
`add_channel` whose fresh id already keys the channel table stores the new
channel over the old one in place: the table does not grow and the lookup
now yields the new channel.  The role-table insertion
(`self._roles[role.id] = role`, embedded as `insertRole`) behaves the same
way; `add_role` itself never reaches it because every call raises (C3). -/
theorem c10_id_collision_silently_replaces :
    (∀ (g : CreateGuild) (ct : ChannelType) (name : String) (pos : Option Int)
        (ow : Option OwArg) (kwargs : List (String × Val)) (fid : Nat)
        (ch : CreateGuildChannel) (g' : CreateGuild),
      (dictGet g._channels fid).isSome = true →
      g.add_channel ct name pos ow kwargs fid = (Except.ok ch, g') →
      g'._channels.length = g._channels.length
        ∧ dictGet g'._channels fid = Option.some ch)
    ∧ (∀ (g : CreateGuild) (r : CreateGuildRole),
      (dictGet g._roles r.id).isSome = true →
      (g.insertRole r)._roles.length = g._roles.length
        ∧ dictGet (g.insertRole r)._roles r.id = Option.some r) := by
  constructor
  · intro g ct name pos ow kwargs fid ch g' hsome hok
    obtain ⟨wl, owm, o0, k2, hk, hm, hb, hch, hg⟩ :=
      add_channel_ok_inversion g ct name pos ow kwargs fid ch g' hok
    have hgc : g'._channels = dictSet g._channels fid ch := by
      rw [hg]
      show dictSet (flagUpdate g ct k2 ch)._channels fid ch = _
      rw [flagUpdate_channels]
    rw [hgc]
    exact ⟨dictSet_length_of_isSome g._channels fid ch hsome,
      dictGet_dictSet_self g._channels fid ch⟩
  · intro g r hsome
    unfold CreateGuild.insertRole
    exact ⟨dictSet_length_of_isSome g._roles r.id r hsome,
      dictGet_dictSet_self g._roles r.id r⟩

/-- C10 witness: adding a voice channel with the colliding fresh id 42 to
`gColl` keeps the table at one entry holding the new channel, and
inserting `newRole` over the stored role with the same id 7 does the
same for the role table. -/
theorem c10_id_collision_witness :
    ((gColl.add_channel ChannelType.voice "new" Option.none Option.none
        [] 42).2._channels.length = gColl._channels.length
      ∧ dictGet (gColl.add_channel ChannelType.voice "new" Option.none
          Option.none [] 42).2._channels 42 = Option.some c10chan)
    ∧ ((gRole.insertRole newRole)._roles.length = gRole._roles.length
      ∧ dictGet (gRole.insertRole newRole)._roles newRole.id
        = Option.some newRole) := by
  constructor
  · exact c10_id_collision_silently_replaces.1 gColl ChannelType.voice "new"
      Option.none Option.none [] 42 c10chan _ rfl rfl
  · exact c10_id_collision_silently_replaces.2 gRole newRole rfl

theorem dictSetAll_keys (base opts : List (String × Val))
    (hd : ∀ a ∈ dictKeys opts, a ∉ dictKeys base)
    (hnd : (dictKeys opts).Nodup) :
    dictKeys (dictSetAll base opts) = dictKeys base ++ dictKeys opts := by
  induction opts generalizing base with
  | nil => simp [dictSetAll, dictKeys]
  | cons kv rest ih =>
    obtain ⟨k, v⟩ := kv
    rw [dictKeys_cons] at hnd
    have hk : k ∉ dictKeys base := hd k (by rw [dictKeys_cons]; exact List.mem_cons_self k _)
    have hstep : dictSetAll base ((k, v) :: rest)
        = dictSetAll (dictSet base k v) rest := rfl
    have hd2 : ∀ a ∈ dictKeys rest, a ∉ dictKeys (dictSet base k v) := by
      intro a ha hmem
      rcases mem_dictKeys_dictSet base k a v hmem with h' | h'
      · exact (List.nodup_cons.mp hnd).1 (h' ▸ ha)
      · exact hd a (by rw [dictKeys_cons]; exact List.mem_cons_of_mem k ha) h'
    rw [hstep, ih (dictSet base k v) hd2 (List.nodup_cons.mp hnd).2,
      dictKeys_dictSet_of_not_mem base k v hk, dictKeys_cons]
    simp [List.append_assoc]

theorem applyWhitelist_keys (wl : List String)
    (kwargs options0 : List (String × Val))
    (hd : ∀ a ∈ wl, a ∉ dictKeys options0) (hnd : wl.Nodup) :
    dictKeys (applyWhitelist wl kwargs options0)
      = dictKeys options0 ++ wl.filter (fun a => suppliedKwarg kwargs a) := by
  induction wl generalizing options0 with
  | nil => simp [applyWhitelist]
  | cons a rest ih =>
    have hstep : applyWhitelist (a :: rest) kwargs options0
        = applyWhitelist rest kwargs
            (match dictGet kwargs a with
             | Option.some v =>
               if v.isMissing then options0 else dictSet options0 a v
             | Option.none => options0) := rfl
    cases hga : dictGet kwargs a with
    | none =>
      rw [hstep]
      simp only [hga]
      rw [ih options0 (fun b hb => hd b (List.mem_cons_of_mem a hb))
        (List.nodup_cons.mp hnd).2, List.filter_cons]
      simp [suppliedKwarg, hga]
    | some v =>
      cases hm : v.isMissing with
      | true =>
        rw [hstep]
        simp only [hga, hm, if_true, ite_true]
        rw [ih options0 (fun b hb => hd b (List.mem_cons_of_mem a hb))
          (List.nodup_cons.mp hnd).2, List.filter_cons]
        simp [suppliedKwarg, hga, hm]
      | false =>
        have hd2 : ∀ b ∈ rest, b ∉ dictKeys (dictSet options0 a v) := by
          intro b hb hmem
          rcases mem_dictKeys_dictSet options0 a b v hmem with h' | h'
          · exact (List.nodup_cons.mp hnd).1 (h' ▸ hb)
          · exact hd b (List.mem_cons_of_mem a hb) h'
        rw [hstep]
        simp only [hga, hm, Bool.false_eq_true, if_false, ite_false]
        rw [ih (dictSet options0 a v) hd2 (List.nodup_cons.mp hnd).2,
          dictKeys_dictSet_of_not_mem options0 a v
            (hd a (List.mem_cons_self a _)), List.filter_cons]
        simp [suppliedKwarg, hga, hm, List.append_assoc]

theorem channel_toDict_keys (c : CreateGuildChannel)
    (hd : ∀ a ∈ dictKeys c._options,
      a ∉ (["id", "type", "name", "position", "permission_overwrites"] : List String))
    (hnd : (dictKeys c._options).Nodup) :
    dictKeys c._to_dict
      = ["id", "type", "name"] ++ dictKeys c._options
        ++ (match c.position with
            | Option.some _ => ["position"]
            | Option.none => [])
        ++ (if c.overwrites.isEmpty then [] else ["permission_overwrites"]) := by
  unfold CreateGuildChannel._to_dict
  have hbase : dictKeys (dictSetAll
      [("id", Val.int (Int.ofNat c.id)),
       ("type", Val.int (Int.ofNat c.type.value)),
       ("name", Val.str c.name)] c._options)
      = ["id", "type", "name"] ++ dictKeys c._options := by
    apply dictSetAll_keys _ _ _ hnd
    intro a ha hmem
    have hx := hd a ha
    have hor : a = "id" ∨ a = "type" ∨ a = "name" := by
      simpa [dictKeys] using hmem
    rcases hor with h | h | h <;> subst h <;> exact hx (by decide)
  have hpos : "position" ∉ dictKeys (dictSetAll
      [("id", Val.int (Int.ofNat c.id)),
       ("type", Val.int (Int.ofNat c.type.value)),
       ("name", Val.str c.name)] c._options) := by
    rw [hbase]
    intro hmem
    rcases List.mem_append.mp hmem with h | h
    · simp at h
    · exact hd "position" h (by decide)
  cases hcp : c.position with
  | none =>
    have how : "permission_overwrites" ∉ dictKeys (dictSetAll
        [("id", Val.int (Int.ofNat c.id)),
         ("type", Val.int (Int.ofNat c.type.value)),
         ("name", Val.str c.name)] c._options) := by
      rw [hbase]
      intro hmem
      rcases List.mem_append.mp hmem with h | h
      · simp at h
      · exact hd "permission_overwrites" h (by decide)
    cases hoe : c.overwrites.isEmpty <;>
      simp only [hoe, Bool.not_true, Bool.not_false, Bool.false_eq_true,
        if_false, if_true, ite_true, ite_false]
    · rw [dictKeys_dictSet_of_not_mem _ _ _ how, hbase]
      simp [List.append_assoc]
    · rw [hbase]
      simp [List.append_assoc]
  | some ppos =>
    have hkeys2 : dictKeys (dictSet (dictSetAll
        [("id", Val.int (Int.ofNat c.id)),
         ("type", Val.int (Int.ofNat c.type.value)),
         ("name", Val.str c.name)] c._options) "position" (Val.int ppos))
        = (["id", "type", "name"] ++ dictKeys c._options) ++ ["position"] := by
      rw [dictKeys_dictSet_of_not_mem _ _ _ hpos, hbase]
    have how : "permission_overwrites" ∉ dictKeys (dictSet (dictSetAll
        [("id", Val.int (Int.ofNat c.id)),
         ("type", Val.int (Int.ofNat c.type.value)),
         ("name", Val.str c.name)] c._options) "position" (Val.int ppos)) := by
      rw [hkeys2]
      intro hmem
      rcases List.mem_append.mp hmem with h | h
      · rcases List.mem_append.mp h with h' | h'
        · simp at h'
        · exact hd "permission_overwrites" h' (by decide)
      · simp at h
    cases hoe : c.overwrites.isEmpty <;>
      simp only [hoe, Bool.not_true, Bool.not_false, Bool.false_eq_true,
        if_false, if_true, ite_true, ite_false]
    · rw [dictKeys_dictSet_of_not_mem _ _ _ how, hkeys2]
    · rw [hkeys2]
      simp [List.append_assoc]

theorem wl_facts (ct : ChannelType) (wl : List String)
    (h : kwargs_per_type ct = Option.some wl) :
    wl.Nodup ∧ ∀ a ∈ wl,
      a ∉ (["id", "type", "name", "position", "permission_overwrites",
        "parent_id"] : List String) := by
  cases ct <;> simp only [kwargs_per_type] at h <;>
    first
    | exact Option.noConfusion h
    | (injection h with h2; subst h2; decide)

theorem categoryBranch_no_category (channels : List (Nat × CreateGuildChannel))
    (kwargs o k2 : List (String × Val))
    (hcat : dictGet kwargs "category" = Option.none)
    (h : categoryBranch channels kwargs = Except.ok (o, k2)) : o = [] := by
  unfold categoryBranch at h
  simp only [hcat, Except.ok.injEq, Prod.mk.injEq] at h
  exact h.1.symm

theorem categoryBranch_parent (channels : List (Nat × CreateGuildChannel))
    (kwargs o k2 : List (String × Val)) (p : Nat)
    (hcat : dictGet kwargs "category" = Option.some (Val.channelRef p))
    (hp : p ≠ 0)
    (h : categoryBranch channels kwargs = Except.ok (o, k2)) :
    o = [("parent_id", Val.int (Int.ofNat p))] := by
  unfold categoryBranch at h
  simp only [hcat, Val.truthy, Val.getId, if_true, if_neg hp] at h
  split at h
  · exact absurd h (by simp)
  · split at h
    · exact absurd h (by simp)
    · simp only [Except.ok.injEq, Prod.mk.injEq] at h
      exact h.1.symm

/-- C6 (amended): beyond the base fields (`id`, `type`, `name`, plus
`position`/`permission_overwrites` when set), a successfully serialized
channel carries exactly the supplied whitelist option keys — except that a
supplied `category` appears renamed as `parent_id` rather than under its
own name, a keyword supplied as the `MISSING` sentinel counts as unset
(line 575), and for non-category kinds the whitelist filter consults the
kwargs with `category` popped; every supplied keyword outside the
whitelist is silently dropped without raising (second conjunct: with a
well-formed overwrites argument and no category reference, no combination
of extra keywords can make the call fail). -/
theorem c6_whitelist_keys_exact :
    (∀ (g : CreateGuild) (ct : ChannelType) (name : String) (pos : Option Int)
        (ow : Option OwArg) (kwargs : List (String × Val)) (fid : Nat)
        (ch : CreateGuildChannel) (g' : CreateGuild) (wl : List String),
      kwargs_per_type ct = Option.some wl →
      (dictGet kwargs "category" = Option.none
        ∨ ∃ p, p ≠ 0 ∧ dictGet kwargs "category" = Option.some (Val.channelRef p)) →
      g.add_channel ct name pos ow kwargs fid = (Except.ok ch, g') →
      dictKeys ch._to_dict
        = ["id", "type", "name"]
          ++ (if ct = ChannelType.category then []
              else match dictGet kwargs "category" with
                   | Option.some _ => ["parent_id"]
                   | Option.none => [])
          ++ wl.filter (fun a =>
              suppliedKwarg (if ct = ChannelType.category then kwargs
                else dictErase kwargs "category") a)
          ++ (match pos with
              | Option.some _ => ["position"]
              | Option.none => [])
          ++ (if ch.overwrites.isEmpty then []
              else ["permission_overwrites"]))
    ∧ (∀ (g : CreateGuild) (ct : ChannelType) (name : String) (pos : Option Int)
        (ow : Option OwArg) (kwargs : List (String × Val)) (fid : Nat)
        (wl : List String),
      kwargs_per_type ct = Option.some wl →
      owArgOk ow = true →
      dictGet kwargs "category" = Option.none →
      ∃ ch g', g.add_channel ct name pos ow kwargs fid = (Except.ok ch, g')) := by
  have hsub : ∀ b : String,
      b ∈ (["id", "type", "name", "position", "permission_overwrites"] : List String) →
      b ∈ (["id", "type", "name", "position", "permission_overwrites",
        "parent_id"] : List String) := by
    intro b hb
    simp only [List.mem_cons, List.not_mem_nil, or_false] at hb ⊢
    tauto
  constructor
  · intro g ct name pos ow kwargs fid ch g' wl hwl hcat hok
    obtain ⟨wl2, owm, o0, k2, hk2wl, hm, hb, hch, hg⟩ :=
      add_channel_ok_inversion g ct name pos ow kwargs fid ch g' hok
    have hwleq : wl2 = wl := by
      rw [hwl] at hk2wl
      exact (Option.some.inj hk2wl).symm
    rw [hwleq] at hch
    obtain ⟨hnd, hmem⟩ := wl_facts ct wl hwl
    have hparent_not_wl : "parent_id" ∉ wl := by
      intro hpw
      exact hmem "parent_id" hpw (by decide)
    have hfilter_sub : ∀ a,
        a ∈ wl.filter (fun a => suppliedKwarg k2 a) → a ∈ wl := by
      intro a ha
      exact (List.mem_filter.mp ha).1
    have hkey_facts : ∀ (o0v : List (String × Val)),
        (dictKeys o0v = [] ∨ dictKeys o0v = ["parent_id"]) →
        dictKeys (applyWhitelist wl k2 o0v)
            = dictKeys o0v ++ wl.filter (fun a => suppliedKwarg k2 a)
          ∧ (∀ a ∈ dictKeys (applyWhitelist wl k2 o0v),
              a ∉ (["id", "type", "name", "position",
                "permission_overwrites"] : List String))
          ∧ (dictKeys (applyWhitelist wl k2 o0v)).Nodup := by
      intro o0v ho0
      have hdisj : ∀ a ∈ wl, a ∉ dictKeys o0v := by
        intro a ha hmem2
        rcases ho0 with h0 | h0 <;> rw [h0] at hmem2
        · simp at hmem2
        · simp only [List.mem_cons, List.not_mem_nil, or_false] at hmem2
          exact hparent_not_wl (hmem2 ▸ ha)
      have hkeys := applyWhitelist_keys wl k2 o0v hdisj hnd
      refine ⟨hkeys, ?_, ?_⟩
      · intro a ha hbad
        rw [hkeys] at ha
        rcases List.mem_append.mp ha with h' | h'
        · rcases ho0 with h0 | h0 <;> rw [h0] at h'
          · simp at h'
          · simp only [List.mem_cons, List.not_mem_nil, or_false] at h'
            subst h'
            have : "parent_id" ∈ (["id", "type", "name", "position",
                "permission_overwrites"] : List String) := hbad
            simp at this
        · exact hmem a (hfilter_sub a h') (hsub a hbad)
      · rw [hkeys]
        rcases ho0 with h0 | h0 <;> rw [h0]
        · simpa using List.Nodup.filter _ hnd
        · simp only [List.singleton_append, List.nodup_cons]
          refine ⟨?_, List.Nodup.filter _ hnd⟩
          intro hpf
          exact hparent_not_wl (hfilter_sub "parent_id" hpf)
    by_cases hctc : ct = ChannelType.category
    · subst hctc
      have hb' : Except.ok (o0, k2)
          = Except.ok (([] : List (String × Val)), kwargs) := hb.symm.trans rfl
      simp only [Except.ok.injEq, Prod.mk.injEq] at hb'
      obtain ⟨ho0, hk2⟩ := hb'
      subst ho0
      subst hk2
      obtain ⟨hkeys, hd5, hnd5⟩ := hkey_facts [] (Or.inl rfl)
      rw [hch]
      rw [channel_toDict_keys _ hd5 hnd5]
      simp only [if_pos rfl]
      rw [hkeys]
      simp [dictKeys, List.append_assoc]
    · have hb2 : categoryBranch g._channels kwargs = Except.ok (o0, k2) := by
        unfold optionsBranch at hb
        rw [if_pos hctc] at hb
        exact hb
      have hk2 : k2 = dictErase kwargs "category" :=
        categoryBranch_kwargs g._channels kwargs o0 k2 hb2
      rcases hcat with hcn | ⟨p, hp, hcp⟩
      · have ho0 : o0 = [] :=
          categoryBranch_no_category g._channels kwargs o0 k2 hcn hb2
        subst ho0
        obtain ⟨hkeys, hd5, hnd5⟩ := hkey_facts [] (Or.inl rfl)
        rw [hch]
        rw [channel_toDict_keys _ hd5 hnd5]
        rw [hkeys, hcn]
        simp only [if_neg hctc]
        rw [← hk2]
        simp [dictKeys, List.append_assoc]
      · have ho0 : o0 = [("parent_id", Val.int (Int.ofNat p))] :=
          categoryBranch_parent g._channels kwargs o0 k2 p hcp hp hb2
        subst ho0
        obtain ⟨hkeys, hd5, hnd5⟩ :=
          hkey_facts [("parent_id", Val.int (Int.ofNat p))] (Or.inr rfl)
        rw [hch]
        rw [channel_toDict_keys _ hd5 hnd5]
        rw [hkeys, hcp]
        simp only [if_neg hctc]
        rw [← hk2]
        simp [dictKeys, List.append_assoc]
  · intro g ct name pos ow kwargs fid wl hwl how hcat
    obtain ⟨m, hm, hmv⟩ := owNormalize_ok_of_argOk ow how
    obtain ⟨ps, hps⟩ := checkOverwrites_ok_of_valid m hmv
    have hob : ∃ o0 k2,
        optionsBranch g._channels ct kwargs = Except.ok (o0, k2) := by
      by_cases hctc : ct = ChannelType.category
      · subst hctc
        exact ⟨[], kwargs, rfl⟩
      · refine ⟨[], dictErase kwargs "category", ?_⟩
        unfold optionsBranch
        rw [if_pos hctc]
        unfold categoryBranch
        simp only [hcat]
    obtain ⟨o0, k2, hob⟩ := hob
    unfold CreateGuild.add_channel
    simp only [hwl, hm, hps, hob]
    exact ⟨_, _, rfl⟩

/-- C6 witness: the concrete C6 call serializes with exactly the keys
`id, type, name, parent_id, topic` (the `junk` key is dropped, `category`
appears as `parent_id`), and a forum call carrying only an unknown keyword
succeeds. -/
theorem c6_whitelist_keys_exact_witness :
    dictKeys c6chan._to_dict = ["id", "type", "name", "parent_id", "topic"]
    ∧ ∃ ch g', g0.add_channel ChannelType.forum "f" Option.none Option.none
        [("junk", Val.int 1)] 95 = (Except.ok ch, g') := by
  constructor
  · have h := c6_whitelist_keys_exact.1 gCat ChannelType.text "rules"
      Option.none Option.none
      [("category", Val.channelRef 5), ("junk", Val.int 9),
       ("topic", Val.str "hi")] 90 c6chan _ _ rfl
      (Or.inr ⟨5, by decide, rfl⟩) rfl
    exact h.trans rfl
  · exact c6_whitelist_keys_exact.2 g0 ChannelType.forum "f" Option.none
      Option.none [("junk", Val.int 1)] 95 _ rfl rfl rfl
